import Mathlib

/-!
Shallow embedding of the tun tunnel handler (tun.go) of the gost proxy:
the IPv4 header codec used by the relay, the address-learning route table,
the two pump-loop iteration bodies of transportTun, the session-level
error normalization, the one-shot tun listener, the tunConn deadline
setters, and the control flow of tunHandler.Handle.
-/

set_option autoImplicit false

namespace Gost

/-- Errors observable in the embedded fragment. `eof` models `io.EOF`;
`headerTooShort` and `bufferTooShort` are the two failures of
`ipv4.ParseHeader`; the listener errors model the two `errors.New`
values of tunListener; `other` covers any remaining read/write error. -/
inductive GoError where
  | eof
  | headerTooShort
  | bufferTooShort
  | acceptOnClosedListener
  | listenerAlreadyClosed
  | other (msg : String)
deriving DecidableEq, Repr

/-- Transport addresses, modeled by their `String()` form (the code keys
its route map and compares addresses via `String()`). -/
abbrev Addr := String

/-- Raw packet bytes. -/
abbrev Bytes := List Nat

/-- Byte `i` of a buffer (0 when out of range; fields are masked to 8 bits). -/
def byteAt (b : Bytes) (i : Nat) : Nat := (b.getD i 0) % 256

/-- Big-endian 16-bit field starting at byte `i`. -/
def be16 (b : Bytes) (i : Nat) : Nat := byteAt b i * 256 + byteAt b (i + 1)

/-- Parsed IPv4 header, the fields of `ipv4.Header` the relay touches. -/
structure Header where
  version : Nat
  len : Nat
  tos : Nat
  totalLen : Nat
  id : Nat
  flags : Nat
  fragOff : Nat
  ttl : Nat
  protocol : Nat
  checksum : Nat
  src : Nat × Nat × Nat × Nat
  dst : Nat × Nat × Nat × Nat
deriving DecidableEq, Repr

/-- `ipv4.ParseHeader` (golang.org/x/net/ipv4, linux branch): fails when
the buffer is shorter than the 20-byte fixed header or shorter than the
header length declared in the IHL nibble; otherwise extracts the fields. -/
def parseHeader (b : Bytes) : Except GoError Header :=
  if b.length < 20 then .error .headerTooShort
  else
    if b.length < byteAt b 0 % 16 * 4 then .error .bufferTooShort
    else .ok {
      version := byteAt b 0 / 16
      len := byteAt b 0 % 16 * 4
      tos := byteAt b 1
      totalLen := be16 b 2
      id := be16 b 4
      flags := be16 b 6 / 8192
      fragOff := be16 b 6 % 8192
      ttl := byteAt b 8
      protocol := byteAt b 9
      checksum := be16 b 10
      src := (byteAt b 12, byteAt b 13, byteAt b 14, byteAt b 15)
      dst := (byteAt b 16, byteAt b 17, byteAt b 18, byteAt b 19) }

/-- Dotted-quad rendering of an IPv4 address, the `net.IP.String()` form
used as the key of the route map. -/
def ipStr : Nat × Nat × Nat × Nat → String
  | (a, b, c, d) =>
    toString a ++ "." ++ toString b ++ "." ++ toString c ++ "." ++ toString d

/-- The address-learning table (`routes sync.Map` in transportTun),
as an association list from source-IP string to transport address. -/
abbrev RouteTable := List (String × Addr)

/-- `routes.Load(k)`. -/
def routesLoad (m : RouteTable) (k : String) : Option Addr :=
  match m with
  | [] => none
  | (k2, v) :: rest => if k = k2 then some v else routesLoad rest k

/-- `routes.LoadOrStore(k, v)`: returns `(actual, loaded)` and the table
after the call — the stored value when present (table unchanged),
otherwise stores `v`. -/
def routesLoadOrStore (m : RouteTable) (k : String) (v : Addr) :
    (Addr × Bool) × RouteTable :=
  match routesLoad m k with
  | some actual => ((actual, true), m)
  | none => ((v, false), (k, v) :: m)

/-- A sequence of `LoadOrStore` learning events applied in order (any
interleaving of the concurrent calls is such a sequence, since
`sync.Map.LoadOrStore` is atomic). -/
def applyLearn (m : RouteTable) : List (String × Addr) → RouteTable
  | [] => m
  | (k, v) :: rest => applyLearn (routesLoadOrStore m k v).2 rest

/-- Buffer pools (`sPool`, `mPool`): each pool is the list of pooled
buffers, identified by id. -/
structure PoolState where
  sPool : List Nat
  mPool : List Nat
deriving DecidableEq, Repr

/-- `pool.Get()`: take a pooled buffer when one exists, otherwise a
freshly allocated one. -/
def poolGet (p : List Nat) (fresh : Nat) : Nat × List Nat :=
  match p with
  | [] => (fresh, [])
  | b :: rest => (b, rest)

/-- `pool.Put(b)`. -/
def poolPut (p : List Nat) (b : Nat) : List Nat := b :: p

/-- Result of one iteration of a pump-loop closure: `cont s` means the
closure returned nil and the loop continues (`s` records what was
forwarded, `none` when the packet was dropped); `exit e` means the
closure returned the error `e`, which the loop sends to the error
channel before the pump terminates. -/
inductive IterOutcome (α : Type) where
  | cont (sent : Option α)
  | exit (e : GoError)
deriving DecidableEq, Repr

/-- Result of one interface-to-transport pump iteration. -/
structure TunToConnRes where
  outcome : IterOutcome (Bytes × Addr)
  pools : PoolState
deriving DecidableEq, Repr

/-- One iteration of the interface-to-transport pump (first goroutine of
transportTun): draw a buffer from sPool (returned to sPool by defer),
read from the tun, parse the header, drop non-v4 packets, resolve the
forwarding address (learned route for the destination IP, else the
static remote address, else drop), and write to the transport.
`readRes` is the outcome of `tun.Read`; `writeRes` is the error of
`conn.WriteTo` when reached (`none` = success). -/
def tunToConnIter (routes : RouteTable) (raddr : Option Addr)
    (readRes : Except GoError Bytes) (writeRes : Option GoError)
    (ps : PoolState) (fresh : Nat) : TunToConnRes :=
  let g := poolGet ps.sPool fresh
  let pools : PoolState := { ps with sPool := poolPut g.2 g.1 }
  let outcome : IterOutcome (Bytes × Addr) :=
    match readRes with
    | .error e => .exit e
    | .ok bytes =>
      match parseHeader bytes with
      | .error e => .exit e
      | .ok h =>
        if h.version ≠ 4 then .cont none
        else
          let addr :=
            match routesLoad routes (ipStr h.dst) with
            | some v => some v
            | none => raddr
          match addr with
          | none => .cont none
          | some a =>
            match writeRes with
            | some e => .exit e
            | none => .cont (some (bytes, a))
  { outcome := outcome, pools := pools }

/-- Result of one transport-to-interface pump iteration. -/
structure ConnToTunRes where
  outcome : IterOutcome Bytes
  routes : RouteTable
  mismatchLogged : Bool
  pools : PoolState
deriving DecidableEq, Repr

/-- One iteration of the transport-to-interface pump (second goroutine of
transportTun): draw a buffer from sPool (released to mPool by defer),
read a datagram and its sender address from the transport, parse the
header, drop non-v4 packets, learn the sender address for the source IP
via LoadOrStore (logging when an existing mapping disagrees), and write
the bytes to the tun. `readRes` is the outcome of `conn.ReadFrom`;
`writeRes` is the error of `tun.Write` when reached. -/
def connToTunIter (routes : RouteTable)
    (readRes : Except GoError (Bytes × Addr)) (writeRes : Option GoError)
    (ps : PoolState) (fresh : Nat) : ConnToTunRes :=
  let g := poolGet ps.sPool fresh
  let pools : PoolState := { sPool := g.2, mPool := poolPut ps.mPool g.1 }
  let core : IterOutcome Bytes × RouteTable × Bool :=
    match readRes with
    | .error e => (.exit e, routes, false)
    | .ok (bytes, addr) =>
      match parseHeader bytes with
      | .error e => (.exit e, routes, false)
      | .ok h =>
        if h.version ≠ 4 then (.cont none, routes, false)
        else
          let lr := routesLoadOrStore routes (ipStr h.src) addr
          let mismatch := lr.1.2 && decide (lr.1.1 ≠ addr)
          match writeRes with
          | some e => (.exit e, lr.2, mismatch)
          | none => (.cont (some bytes), lr.2, mismatch)
  { outcome := core.1, routes := core.2.1, mismatchLogged := core.2.2, pools := pools }

/-- Session-level normalization of the first error received on the
single-slot error channel (`err := <-errc; if err != nil && err == io.EOF
\x7b err = nil \x7d`): end-of-stream becomes success, anything else is
returned to the caller unchanged. The pumps only ever send a non-nil
error, so the received value is a `GoError`. -/
def transportTunResult (e : GoError) : Option GoError :=
  if e = .eof then none else some e

/-- State of a tunListener: whether the one-shot `accepted` and `closed`
channels have been closed. -/
structure TunListenerState where
  accepted : Bool
  closed : Bool
deriving DecidableEq, Repr

/-- The state TunListener returns: both signal channels still open. -/
def newTunListener : TunListenerState := { accepted := false, closed := false }

/-- What a call to `tunListener.Accept` does: either return the wrapped
socket immediately, or block until the closed channel is signaled and
then fail with the given error. -/
inductive AcceptResult where
  | conn
  | blockUntilClosedThenErr (e : GoError)
deriving DecidableEq, Repr

/-- `tunListener.Accept`: the select on the accepted channel takes the
default branch while that channel is open, closing it and returning the
socket; once accepted has been signaled, the call parks on the closed
channel and then returns the accept-on-closed-listener error. -/
def tunListenerAccept (s : TunListenerState) : AcceptResult × TunListenerState :=
  if s.accepted then (.blockUntilClosedThenErr .acceptOnClosedListener, s)
  else (.conn, { s with accepted := true })

/-- `tunListener.Close`: fails when the closed channel is already
signaled, otherwise signals it and succeeds (`none` = nil error). -/
def tunListenerClose (s : TunListenerState) : Option GoError × TunListenerState :=
  if s.closed then (some .listenerAlreadyClosed, s)
  else (none, { s with closed := true })

/-- The `net.OpError` value built by the tunConn deadline setters. -/
structure OpError where
  op : String
  net : String
  err : String
deriving DecidableEq, Repr

/-- `tunConn.SetDeadline` (`none` would be a nil error; the method always
returns a non-nil unsupported error). The deadline argument is ignored. -/
def tunConnSetDeadline (_t : Nat) : Option OpError :=
  some { op := "set", net := "tun", err := "deadline not supported" }

/-- `tunConn.SetReadDeadline`. -/
def tunConnSetReadDeadline (_t : Nat) : Option OpError :=
  some { op := "set", net := "tun", err := "deadline not supported" }

/-- `tunConn.SetWriteDeadline`. -/
def tunConnSetWriteDeadline (_t : Nat) : Option OpError :=
  some { op := "set", net := "tun", err := "deadline not supported" }

/-- Environment of one `tunHandler.Handle` call: the type assertion on
the connection and the outcomes of the fallible steps it may reach. -/
structure HandleEnv where
  isPacketConn : Bool
  createTunOk : Bool
  raddrConfigured : Bool
  resolveRaddrOk : Bool
  hasUsers : Bool
  cipherOk : Bool
deriving DecidableEq, Repr

/-- The externally visible steps of `tunHandler.Handle`, in order. -/
inductive HandleEvent where
  | logWrongConnType
  | createTun
  | resolveRaddr
  | pickCipher
  | runTransportTun
deriving DecidableEq, Repr

/-- Control flow of `tunHandler.Handle` as the trace of steps it
performs: a non-PacketConn connection is logged and the method returns;
otherwise it creates the tun, resolves the remote address when one is
configured, builds the cipher when users are configured, and runs
transportTun — each failure returning early after logging. -/
def handleTrace (env : HandleEnv) : List HandleEvent :=
  if env.isPacketConn = false then [.logWrongConnType]
  else
    let t1 : List HandleEvent := [.createTun]
    if env.createTunOk = false then t1
    else
      let t2 := t1 ++ (if env.raddrConfigured then [HandleEvent.resolveRaddr] else [])
      if env.raddrConfigured && env.resolveRaddrOk = false then t2
      else
        let t3 := t2 ++ (if env.hasUsers then [HandleEvent.pickCipher] else [])
        if env.hasUsers && env.cipherOk = false then t3
        else t3 ++ [.runTransportTun]

/-- Sample 20-byte IPv4 packet: version 4, src 10.0.0.9, dst 10.0.0.5. -/
def samplePacket : Bytes :=
  [69, 0, 0, 20, 0, 0, 0, 0, 64, 17, 0, 0, 10, 0, 0, 9, 10, 0, 0, 5]

/-- The header `parseHeader` extracts from `samplePacket`. -/
def sampleHeader : Header :=
  { version := 4, len := 20, tos := 0, totalLen := 20, id := 0, flags := 0,
    fragOff := 0, ttl := 64, protocol := 17, checksum := 0,
    src := (10, 0, 0, 9), dst := (10, 0, 0, 5) }

/-- Sample buffer whose version nibble is 6 but which parses fine. -/
def samplePacketV6 : Bytes :=
  [101, 0, 0, 20, 0, 0, 0, 0, 64, 17, 0, 0, 10, 0, 0, 9, 10, 0, 0, 5]

/-- The header `parseHeader` extracts from `samplePacketV6`. -/
def sampleHeaderV6 : Header :=
  { version := 6, len := 20, tos := 0, totalLen := 20, id := 0, flags := 0,
    fragOff := 0, ttl := 64, protocol := 17, checksum := 0,
    src := (10, 0, 0, 9), dst := (10, 0, 0, 5) }

/-- The only errors `parseHeader` produces are the two too-short errors;
in particular a parse error is never end-of-stream. -/
theorem parseHeader_error_cases (b : Bytes) (e : GoError)
    (h : parseHeader b = .error e) :
    e = GoError.headerTooShort ∨ e = GoError.bufferTooShort := by
  unfold parseHeader at h
  split at h
  · injection h with h2
    exact Or.inl h2.symm
  · split at h
    · injection h with h2
      exact Or.inr h2.symm
    · simp at h

/-- Claim C1 counterexample: the one-byte buffer fails header parsing,
and the iteration of each pump loop returns the parse error to the loop
(outcome `exit`), which delivers it to the error channel and terminates
the pump — it does not continue the loop as the claim states. -/
theorem c1_counterexample :
    parseHeader [0] = Except.error GoError.headerTooShort ∧
    (tunToConnIter [] none (.ok [0]) none ⟨[], []⟩ 0).outcome =
      IterOutcome.exit GoError.headerTooShort ∧
    (connToTunIter [] (.ok ([0], "B")) none ⟨[], []⟩ 0).outcome =
      IterOutcome.exit GoError.headerTooShort :=
  ⟨rfl, rfl, rfl⟩

/-- Claim C1 (amended): for every buffer read by either pump loop that
fails IPv4 header parsing, the relay logs and terminates the pump: the
iteration returns the parse error, the loop delivers it to the error
channel and exits, and — parse errors never being end-of-stream — the
session reports that error to the caller. -/
theorem c1_parse_failure_terminates_pump :
    ∀ (routes : RouteTable) (raddr : Option Addr) (bytes : Bytes) (e : GoError)
      (w w2 : Option GoError) (ps : PoolState) (fresh : Nat) (sender : Addr),
      parseHeader bytes = .error e →
      (tunToConnIter routes raddr (.ok bytes) w ps fresh).outcome = .exit e ∧
      (connToTunIter routes (.ok (bytes, sender)) w2 ps fresh).outcome = .exit e ∧
      transportTunResult e = some e := by
  intro routes raddr bytes e w w2 ps fresh sender hp
  have hne : e ≠ GoError.eof := by
    rcases parseHeader_error_cases bytes e hp with h | h <;> subst h <;> intro hc <;> cases hc
  refine ⟨?_, ?_, ?_⟩
  · simp [tunToConnIter, hp]
  · simp [connToTunIter, hp]
  · simp [transportTunResult, hne]

/-- Witness for the amended claim C1 at the one-byte buffer. -/
theorem c1_parse_failure_terminates_pump_witness :
    parseHeader [1] = Except.error GoError.headerTooShort ∧
    ((tunToConnIter [] none (.ok [1]) none ⟨[], []⟩ 0).outcome =
        IterOutcome.exit GoError.headerTooShort ∧
      (connToTunIter [] (.ok ([1], "X")) none ⟨[], []⟩ 0).outcome =
        IterOutcome.exit GoError.headerTooShort ∧
      transportTunResult GoError.headerTooShort = some GoError.headerTooShort) :=
  ⟨rfl, c1_parse_failure_terminates_pump [] none [1] GoError.headerTooShort
    none none ⟨[], []⟩ 0 "X" rfl⟩

/-- Claim C2: first-writer-wins for the address-learning table — a
stored mapping survives every later sequence of learnOrKeep operations
unchanged, and the first observation of an unlearned IP is what gets
stored; any interleaving of concurrent LoadOrStore calls is such a
sequence since sync.Map.LoadOrStore is atomic. -/
theorem c2_first_writer_wins :
    (∀ (m : RouteTable) (k : String) (v : Addr) (ops : List (String × Addr)),
      routesLoad m k = some v → routesLoad (applyLearn m ops) k = some v) ∧
    (∀ (m : RouteTable) (k : String) (v : Addr) (ops : List (String × Addr)),
      routesLoad m k = none →
        routesLoad (applyLearn m ((k, v) :: ops)) k = some v) := by
  have main : ∀ (ops : List (String × Addr)) (m : RouteTable) (k : String) (v : Addr),
      routesLoad m k = some v → routesLoad (applyLearn m ops) k = some v := by
    intro ops
    induction ops with
    | nil => intro m k v h; exact h
    | cons p rest ih =>
      intro m k v h
      obtain ⟨pk, pv⟩ := p
      show routesLoad (applyLearn (routesLoadOrStore m pk pv).2 rest) k = some v
      apply ih
      unfold routesLoadOrStore
      cases hl : routesLoad m pk with
      | some a => simp only [hl]; exact h
      | none =>
        have hk : k ≠ pk := by
          intro he
          rw [he, hl] at h
          cases h
        simp only [hl]
        show routesLoad ((pk, pv) :: m) k = some v
        rw [routesLoad, if_neg hk]
        exact h
  constructor
  · intro m k v ops h
    exact main ops m k v h
  · intro m k v ops h
    show routesLoad (applyLearn (routesLoadOrStore m k v).2 ops) k = some v
    apply main
    unfold routesLoadOrStore
    rw [h]
    show routesLoad ((k, v) :: m) k = some v
    rw [routesLoad, if_pos rfl]

/-- Witness for claim C2: 10.0.0.9 was first learned at B; a later
observation at C does not overwrite it. -/
theorem c2_first_writer_wins_witness :
    routesLoad [("10.0.0.9", "B")] "10.0.0.9" = some "B" ∧
    routesLoad (applyLearn [("10.0.0.9", "B")] [("10.0.0.9", "C")])
      "10.0.0.9" = some "B" :=
  ⟨by decide,
    c2_first_writer_wins.1 [("10.0.0.9", "B")] "10.0.0.9" "B"
      [("10.0.0.9", "C")] (by decide)⟩

/-- Claim C3 counterexample: close a fresh listener, then call Accept —
the listener is closed yet Accept still returns the usable wrapped
connection instead of failing, because Accept gates on the accepted
signal, not the closed signal. -/
theorem c3_counterexample :
    ((tunListenerClose newTunListener).2).closed = true ∧
    (tunListenerAccept (tunListenerClose newTunListener).2).1 =
      AcceptResult.conn :=
  ⟨rfl, rfl⟩

/-- Claim C3 (amended): Accept gates on the accepted signal only: as long
as no Accept has succeeded, a call returns the wrapped connection even on
an already-closed listener; every call after the first successful Accept
blocks until the closed signal and then fails with the
accept-on-closed-listener error. -/
theorem c3_accept_semantics :
    ∀ s : TunListenerState,
      (s.accepted = false →
        (tunListenerAccept s).1 = AcceptResult.conn ∧
        ((tunListenerAccept s).2).accepted = true) ∧
      (s.accepted = true →
        (tunListenerAccept s).1 =
          AcceptResult.blockUntilClosedThenErr GoError.acceptOnClosedListener ∧
        (tunListenerAccept s).2 = s) := by
  intro s
  constructor
  · intro h
    constructor <;> simp [tunListenerAccept, h]
  · intro h
    constructor <;> simp [tunListenerAccept, h]

/-- Witness for the amended claim C3 on an accepted-and-closed listener. -/
theorem c3_accept_semantics_witness :
    (tunListenerAccept { accepted := true, closed := true }).1 =
      AcceptResult.blockUntilClosedThenErr GoError.acceptOnClosedListener ∧
    (tunListenerAccept { accepted := true, closed := true }).2 =
      { accepted := true, closed := true } :=
  (c3_accept_semantics { accepted := true, closed := true }).2 rfl

/-- Claim C4: the first error received from the error channel determines
the session result — end-of-stream is normalized to no error, any other
error is returned exactly as delivered. -/
theorem c4_first_error_normalization :
    transportTunResult GoError.eof = none ∧
    ∀ e : GoError, e ≠ GoError.eof → transportTunResult e = some e := by
  constructor
  · rfl
  · intro e h
    simp [transportTunResult, h]

/-- Witness for claim C4 on a non-EOF error. -/
theorem c4_first_error_normalization_witness :
    transportTunResult (GoError.other "connection reset") =
      some (GoError.other "connection reset") :=
  c4_first_error_normalization.2 (GoError.other "connection reset") (by decide)

/-- Claim C5: for a successfully parsed version-4 packet read from the
interface, the forwarding address is the learned route for the
destination IP when one exists, otherwise the static remote address;
when neither exists the packet is dropped (nothing forwarded) and the
iteration continues without error. -/
theorem c5_forward_address_resolution :
    ∀ (routes : RouteTable) (raddr : Option Addr) (bytes : Bytes) (h : Header)
      (ps : PoolState) (fresh : Nat),
      parseHeader bytes = .ok h → h.version = 4 →
      (∀ a : Addr, routesLoad routes (ipStr h.dst) = some a →
        (tunToConnIter routes raddr (.ok bytes) none ps fresh).outcome =
          .cont (some (bytes, a))) ∧
      (routesLoad routes (ipStr h.dst) = none →
        (∀ r : Addr, raddr = some r →
          (tunToConnIter routes raddr (.ok bytes) none ps fresh).outcome =
            .cont (some (bytes, r))) ∧
        (raddr = none → ∀ w : Option GoError,
          (tunToConnIter routes raddr (.ok bytes) w ps fresh).outcome =
            .cont none)) := by
  intro routes raddr bytes h ps fresh hp hv
  constructor
  · intro a ha
    simp [tunToConnIter, hp, hv, ha]
  · intro hn
    constructor
    · intro r hr
      simp [tunToConnIter, hp, hv, hn, hr]
    · intro hr w
      simp [tunToConnIter, hp, hv, hn, hr]

/-- Witness for claim C5: destination 10.0.0.5 unlearned, static remote
A configured — the packet goes to A. -/
theorem c5_forward_address_resolution_witness :
    parseHeader samplePacket = Except.ok sampleHeader ∧
    sampleHeader.version = 4 ∧
    routesLoad [] (ipStr sampleHeader.dst) = none ∧
    (tunToConnIter [] (some "A") (.ok samplePacket) none ⟨[], []⟩ 0).outcome =
      IterOutcome.cont (some (samplePacket, "A")) :=
  ⟨rfl, rfl, rfl,
    ((c5_forward_address_resolution [] (some "A") samplePacket sampleHeader
      ⟨[], []⟩ 0 rfl rfl).2 rfl).1 "A" rfl⟩

/-- Claim C6: every pump iteration draws its scratch buffer from a pool
and releases it to a pool when the iteration ends, on every path; the
interface-to-transport pump returns the buffer to the pool it drew from
(sPool, pool state fully restored), while the transport-to-interface
pump draws from sPool but releases to mPool. -/
theorem c6_pool_discipline :
    ∀ (ps : PoolState) (b : Nat) (rest : List Nat) (fresh : Nat)
      (routes : RouteTable) (raddr : Option Addr)
      (rr : Except GoError Bytes) (w : Option GoError)
      (rr2 : Except GoError (Bytes × Addr)) (w2 : Option GoError),
      ps.sPool = b :: rest →
      (tunToConnIter routes raddr rr w ps fresh).pools = ps ∧
      ((connToTunIter routes rr2 w2 ps fresh).pools).sPool = rest ∧
      ((connToTunIter routes rr2 w2 ps fresh).pools).mPool = b :: ps.mPool := by
  intro ps b rest fresh routes raddr rr w rr2 w2 hs
  obtain ⟨sp, mp⟩ := ps
  simp only at hs
  subst hs
  refine ⟨?_, ?_, ?_⟩
  · simp [tunToConnIter, poolGet, poolPut]
  · simp [connToTunIter, poolGet]
  · simp [connToTunIter, poolGet, poolPut]

/-- Witness for claim C6 with one pooled buffer in sPool. -/
theorem c6_pool_discipline_witness :
    (tunToConnIter [] none (.error .eof) none ⟨[5], [9]⟩ 0).pools =
      (⟨[5], [9]⟩ : PoolState) ∧
    ((connToTunIter [] (.error .eof) none ⟨[5], [9]⟩ 0).pools).sPool = [] ∧
    ((connToTunIter [] (.error .eof) none ⟨[5], [9]⟩ 0).pools).mPool = [5, 9] :=
  c6_pool_discipline ⟨[5], [9]⟩ 5 [] 0 [] none (.error .eof) none
    (.error .eof) none rfl

/-- Claim C7: a packet that parses but whose version field is not 4 is
dropped by both pumps — nothing forwarded, no error raised, the table
untouched, the loop continues — an outcome distinct from a parse
failure, which produces an exit. -/
theorem c7_version_mismatch_dropped :
    ∀ (routes : RouteTable) (raddr : Option Addr) (bytes : Bytes) (h : Header)
      (w w2 : Option GoError) (ps : PoolState) (fresh : Nat) (sender : Addr),
      parseHeader bytes = .ok h → h.version ≠ 4 →
      (tunToConnIter routes raddr (.ok bytes) w ps fresh).outcome = .cont none ∧
      (connToTunIter routes (.ok (bytes, sender)) w2 ps fresh).outcome =
        .cont none ∧
      (connToTunIter routes (.ok (bytes, sender)) w2 ps fresh).routes = routes ∧
      ∀ e : GoError,
        (IterOutcome.cont (none : Option (Bytes × Addr))) ≠ .exit e := by
  intro routes raddr bytes h w w2 ps fresh sender hp hv
  refine ⟨?_, ?_, ?_, ?_⟩
  · simp [tunToConnIter, hp, hv]
  · simp [connToTunIter, hp, hv]
  · simp [connToTunIter, hp, hv]
  · intro e hc
    cases hc

/-- Witness for claim C7 on a version-6 buffer. -/
theorem c7_version_mismatch_dropped_witness :
    parseHeader samplePacketV6 = Except.ok sampleHeaderV6 ∧
    (tunToConnIter [] (some "A") (.ok samplePacketV6) none ⟨[], []⟩ 0).outcome =
      IterOutcome.cont none ∧
    (connToTunIter [] (.ok (samplePacketV6, "B")) none ⟨[], []⟩ 0).outcome =
      IterOutcome.cont none ∧
    (connToTunIter [] (.ok (samplePacketV6, "B")) none ⟨[], []⟩ 0).routes =
      [] :=
  ⟨rfl,
    (c7_version_mismatch_dropped [] (some "A") samplePacketV6 sampleHeaderV6
      none none ⟨[], []⟩ 0 "B" rfl (by decide)).1,
    (c7_version_mismatch_dropped [] (some "A") samplePacketV6 sampleHeaderV6
      none none ⟨[], []⟩ 0 "B" rfl (by decide)).2.1,
    (c7_version_mismatch_dropped [] (some "A") samplePacketV6 sampleHeaderV6
      none none ⟨[], []⟩ 0 "B" rfl (by decide)).2.2.1⟩

/-- Claim C8: the first Close on a fresh listener signals the closed
state and succeeds; every Close on a listener whose closed state is
already signaled fails with the already-closed error, and the state
stays closed — so every call after the first fails. -/
theorem c8_close_idempotency :
    (tunListenerClose newTunListener).1 = none ∧
    ((tunListenerClose newTunListener).2).closed = true ∧
    ∀ s : TunListenerState, s.closed = true →
      (tunListenerClose s).1 = some GoError.listenerAlreadyClosed ∧
      ((tunListenerClose s).2).closed = true := by
  refine ⟨rfl, rfl, ?_⟩
  intro s h
  constructor <;> simp [tunListenerClose, h]

/-- Witness for claim C8: a second Close fails. -/
theorem c8_close_idempotency_witness :
    (tunListenerClose (tunListenerClose newTunListener).2).1 =
      some GoError.listenerAlreadyClosed ∧
    ((tunListenerClose (tunListenerClose newTunListener).2).2).closed = true :=
  c8_close_idempotency.2.2 (tunListenerClose newTunListener).2 rfl

/-- Claim C9: for every deadline argument, each of the three deadline
setters of tunConn returns the non-nil unsupported OpError; none ever
returns a nil error. -/
theorem c9_deadline_unsupported :
    ∀ t : Nat,
      tunConnSetDeadline t =
        some { op := "set", net := "tun", err := "deadline not supported" } ∧
      tunConnSetReadDeadline t =
        some { op := "set", net := "tun", err := "deadline not supported" } ∧
      tunConnSetWriteDeadline t =
        some { op := "set", net := "tun", err := "deadline not supported" } ∧
      tunConnSetDeadline t ≠ none ∧
      tunConnSetReadDeadline t ≠ none ∧
      tunConnSetWriteDeadline t ≠ none := by
  intro t
  refine ⟨rfl, rfl, rfl, ?_, ?_, ?_⟩ <;> intro h <;> cases h

/-- Claim C10: when the connection handed to Handle is not a packet
connection, the trace of Handle is exactly the wrong-connection-type log:
no tun interface is created, no cipher is constructed, and no pump loop
is started. -/
theorem c10_non_packet_conn :
    ∀ env : HandleEnv, env.isPacketConn = false →
      handleTrace env = [HandleEvent.logWrongConnType] ∧
      HandleEvent.createTun ∉ handleTrace env ∧
      HandleEvent.pickCipher ∉ handleTrace env ∧
      HandleEvent.runTransportTun ∉ handleTrace env := by
  intro env h
  have ht : handleTrace env = [HandleEvent.logWrongConnType] := by
    simp [handleTrace, h]
  refine ⟨ht, ?_, ?_, ?_⟩ <;> rw [ht] <;> simp

/-- Witness for claim C10 on a concrete non-packet-connection call. -/
theorem c10_non_packet_conn_witness :
    handleTrace
        { isPacketConn := false, createTunOk := true, raddrConfigured := false,
          resolveRaddrOk := true, hasUsers := false, cipherOk := true } =
      [HandleEvent.logWrongConnType] :=
  (c10_non_packet_conn
    { isPacketConn := false, createTunOk := true, raddrConfigured := false,
      resolveRaddrOk := true, hasUsers := false, cipherOk := true } rfl).1

end Gost
